import Mathlib

/-!
Shallow embedding of the cmon coding-assistant core: the conversation
session (src/chat.rs), the tool dispatcher (src/chat.rs), and the
DeepSeek provider backend (src/inference/deepseek.rs).

External collaborators (tokenizer, git tree listing, filesystem, shell,
HTTP transport, serde parsing) are abstracted as function parameters, as
the spec treats them as interface contracts.
-/

namespace Cmon

/-- Role enum from the inference types module (variants as used across
src/chat.rs and src/inference/deepseek.rs). -/
inductive Role
  | User
  | Assistant
  | System
  | Developer
deriving DecidableEq

/-- Model of serde_json::Value: untrusted structured JSON carried in tool
inputs. Objects are association lists in insertion order; numbers are
abstracted to Int (no claim depends on numeric content). -/
inductive Json
  | null
  | bool (b : Bool)
  | num (n : Int)
  | str (s : String)
  | arr (xs : List Json)
  | obj (fields : List (String × Json))

/-- serde_json Value::get on an object key: first matching key, None for
non-objects. -/
def Json.get : Json → String → Option Json
  | .obj fields, key => fields.lookup key
  | _, _ => none

/-- serde_json Value::as_str: Some for strings only. -/
def Json.as_str : Json → Option String
  | .str s => some s
  | _ => none

/-- ContentItem enum from the inference types module. -/
inductive ContentItem
  | Text (text : String)
  | ToolUse (id name : String) (input : Json)
  | ToolResult (tool_use_id content : String)

/-- Message: a role together with an ordered sequence of content items. -/
structure Message where
  role : Role
  content : List ContentItem

/-- ModelResponse: the vendor-neutral result of one provider query. -/
structure ModelResponse where
  content : List ContentItem
  id : String
  model : String
  role : String
  message_type : String
  stop_reason : String
  stop_sequence : Option String

/-- Rust Debug rendering of a string slice or path (quotes around the
text; character escaping elided, it affects no claim). -/
def strDebug (s : String) : String := "\"" ++ s ++ "\""

mutual

/-- Rust Debug rendering of serde_json::Value, used by format! with
\x7b:?\x7d in chat.rs (tool inputs inside error messages and token text). -/
def jsonDebug : Json → String
  | .null => "Null"
  | .bool b => "Bool(" ++ (if b then "true" else "false") ++ ")"
  | .num n => "Number(" ++ toString n ++ ")"
  | .str s => "String(" ++ strDebug s ++ ")"
  | .arr xs => "Array [" ++ jsonListDebug xs ++ "]"
  | .obj fields => "Object \x7b" ++ jsonFieldsDebug fields ++ "\x7d"

def jsonListDebug : List Json → String
  | [] => ""
  | [x] => jsonDebug x
  | x :: xs => jsonDebug x ++ ", " ++ jsonListDebug xs

def jsonFieldsDebug : List (String × Json) → String
  | [] => ""
  | [(k, v)] => strDebug k ++ ": " ++ jsonDebug v
  | (k, v) :: fs => strDebug k ++ ": " ++ jsonDebug v ++ ", " ++ jsonFieldsDebug fs

end

/-- Rust Debug rendering of Option<&Value>. -/
def optionJsonDebug : Option Json → String
  | none => "None"
  | some v => "Some(" ++ jsonDebug v ++ ")"

/-- Rust Debug rendering of Role (derived Debug prints the variant name). -/
def roleDebug : Role → String
  | .User => "User"
  | .Assistant => "Assistant"
  | .System => "System"
  | .Developer => "Developer"

namespace Chat

/-- Chat::content_to_string (src/chat.rs:80-89): flattens a content list
to one space-joined string for token counting. -/
def content_to_string (content : List ContentItem) : String :=
  String.intercalate " "
    (content.map fun item =>
      match item with
      | ContentItem.Text text => text
      | ContentItem.ToolUse _ name input =>
          "tool " ++ name ++ " with input: " ++ jsonDebug input
      | ContentItem.ToolResult _ content => "tool result: " ++ content)

/-- Chat::calculate_total_tokens (src/chat.rs:91-100). The tokenizer is
abstracted as tok : String → Nat giving the encoding length of a text. -/
def calculate_total_tokens (tok : String → Nat) (messages : List Message) : Nat :=
  (messages.map fun msg =>
    tok (roleDebug msg.role ++ " " ++ content_to_string msg.content)).sum

/-- Chat::trim_messages_to_token_limit (src/chat.rs:102-106): while the
estimated total exceeds max_tokens and the history is non-empty, remove
the oldest message. -/
def trim_messages_to_token_limit (tok : String → Nat) (max_tokens : Nat) :
    List Message → List Message
  | [] => []
  | msg :: rest =>
      if calculate_total_tokens tok (msg :: rest) > max_tokens then
        trim_messages_to_token_limit tok max_tokens rest
      else
        msg :: rest

/-- Chat::extract_string_field (src/chat.rs:108-116): required string
field lookup in a tool input, with the exact error messages. -/
def extract_string_field (input : Json) (field_name : String) :
    Except String String :=
  match input.get field_name with
  | none =>
      .error ("Missing \x27" ++ field_name ++ "\x27 field in tool input: "
        ++ jsonDebug input)
  | some v =>
      match v.as_str with
      | some s => .ok s
      | none =>
          .error ("\x27" ++ field_name ++ "\x27 field is not a string: "
            ++ optionJsonDebug (input.get field_name))

/-- The fixed system prompt of Chat::send_message (src/chat.rs:121-138),
with the file-tree listing spliced in at the format placeholder. -/
def systemPrompt (tree_string : String) : String :=
  "\n                You are a coding assistant working on a project.\n                \n                File tree structure:\n                "
  ++ tree_string
  ++ "\n\n                The user will give you instructions on how to change the project code.\n\n                Always call \x27compile_check\x27 tool after completing changes that the user requests.  If compile_check shows any errors, make subsequent calls to correct the errors. Continue checking and rewriting until there are no more errors.  If there are warnings then do not try to fix them, just let the user know.  If any bash commands are needed like installing packages use tool \x27execute\x27.\n\n                Never make any changes outside of the project\x27s root directory.\n                Always read and write entire file contents.  Never write partial contents of a file.\n\n                The user may also general questions and in that case simply answer but do not execute any tools.\n                "

/-- Chat::send_message (src/chat.rs:118-159). The collaborators are
abstracted: get_tree is the result of GitTree::get_tree(), query_model is
the bound provider backend. Returns the call result together with the
post-call history (self.messages). -/
def send_message (tok : String → Nat) (max_tokens : Nat)
    (get_tree : Except String String)
    (query_model : List Message → String → Except String ModelResponse)
    (messages : List Message) (message : Message) :
    Except String Message × List Message :=
  if message.role = Role.User then
    match get_tree with
    | .error e => (.error e, messages)
    | .ok tree_string =>
        let system_message := systemPrompt tree_string
        let trimmed := trim_messages_to_token_limit tok max_tokens messages
        let pushed := trimmed ++ [message]
        match query_model pushed system_message with
        | .ok response =>
            let new_msg : Message := ⟨Role.Assistant, response.content⟩
            (.ok new_msg, pushed ++ [new_msg])
        | .error e => (.error e, pushed.dropLast)
  else
    (.error "Can only send messages with user role when querying model.",
      messages)

end Chat

/-- Observable host-side side effects of the tool dispatcher: filesystem
writes/reads and shell executions (bash -c script, run in cwd). -/
inductive Effect
  | fsWrite (path content : String)
  | fsRead (path : String)
  | shell (cwd script : String)
deriving DecidableEq

/-- Captured stdout/stderr of a finished child process. -/
structure CmdOutput where
  stdout : String
  stderr : String
deriving DecidableEq

/-- Outcome of Chat::handle_tool_use: Ok(text), Err(anyhow error), or a
panic (the .expect on Command::output when spawning bash fails). -/
inductive DispatchOutcome
  | ok (result : String)
  | err (e : String)
  | panicked (msg : String)
deriving DecidableEq

/-- Host environment of the tool dispatcher: GitTree::get_git_root,
std::fs::write, std::fs::read_to_string, and Command::output for
bash -c in a working directory (none models a spawn failure, which the
source turns into a panic via .expect). Error payloads stand for the
Debug text of the underlying io::Error. -/
structure ToolEnv where
  get_git_root : Except String String
  fsWrite : String → String → Except String Unit
  fsRead : String → Except String String
  runCmd : String → String → Option CmdOutput

/-- PathBuf::join of the git root with a tool-supplied path: an absolute
path replaces the root, a relative one is appended. -/
def pathJoin (root p : String) : String :=
  if p.startsWith "/" then p else root ++ "/" ++ p

namespace Chat

/-- Chat::handle_tool_use (src/chat.rs:161-226), with the side effects it
performs recorded in order. Matches the source arm for arm: write_file
extracts content then path; compile_check wraps the command in
a background/sleep/kill bash script; unknown names yield a successful
"Unknown tool" text; non-ToolUse items are a hard error. -/
def handle_tool_use (env : ToolEnv) (content_item : ContentItem) :
    DispatchOutcome × List Effect :=
  match content_item with
  | ContentItem.ToolUse _ name input =>
      match env.get_git_root with
      | .ok root_path =>
          match name with
          | "write_file" =>
              match extract_string_field input "content" with
              | .error e => (.err e, [])
              | .ok content =>
                  match extract_string_field input "path" with
                  | .error e => (.err e, [])
                  | .ok file_path =>
                      let full_path := pathJoin root_path file_path
                      match env.fsWrite full_path content with
                      | .ok _ =>
                          (.ok ("Successfully wrote content to file "
                            ++ strDebug full_path ++ "."),
                           [Effect.fsWrite full_path content])
                      | .error e =>
                          (.ok ("Error writing to file "
                            ++ strDebug full_path ++ ": " ++ e ++ "."),
                           [Effect.fsWrite full_path content])
          | "read_file" =>
              match extract_string_field input "path" with
              | .error e => (.err e, [])
              | .ok file_path =>
                  let full_path := pathJoin root_path file_path
                  match env.fsRead full_path with
                  | .ok file_content =>
                      (.ok file_content, [Effect.fsRead full_path])
                  | .error e =>
                      (.ok ("Error reading file " ++ strDebug full_path
                        ++ ": " ++ e ++ "."),
                       [Effect.fsRead full_path])
          | "compile_check" =>
              match extract_string_field input "cmd" with
              | .error e => (.err e, [])
              | .ok check_cmd =>
                  let script := check_cmd ++ " & sleep 5; kill $!"
                  match env.runCmd root_path script with
                  | none =>
                      (.panicked "Failed to execute command",
                       [Effect.shell root_path script])
                  | some output =>
                      (.ok ("Stdout:\n" ++ output.stdout ++ "\nStderr:\n"
                        ++ output.stderr),
                       [Effect.shell root_path script])
          | "execute" =>
              match extract_string_field input "statement" with
              | .error e => (.err e, [])
              | .ok statement =>
                  match env.runCmd root_path statement with
                  | none =>
                      (.panicked "Failed to execute command",
                       [Effect.shell root_path statement])
                  | some output =>
                      (.ok ("Stdout:\n" ++ output.stdout ++ "\nStderr:\n"
                        ++ output.stderr),
                       [Effect.shell root_path statement])
          | _ => (.ok ("Unknown tool: " ++ name), [])
      | .error e => (.err ("Error getting git root: " ++ e), [])
  | _ => (.err "Not a tool use content item", [])

end Chat

/-- Parameter schema of one tool property (inference/tools module, fields
as constructed in src/inference/deepseek.rs). -/
structure PropertySchema where
  property_type : String
  description : String
deriving DecidableEq

/-- Flat object schema of a tool's parameters. The source's HashMap of
properties is modelled as an association list in insertion order. -/
structure InputSchema where
  schema_type : String
  properties : List (String × PropertySchema)
  required : List String
deriving DecidableEq

/-- OpenAI-style function payload of a tool descriptor. -/
structure OpenAIToolFunction where
  name : String
  description : String
  parameters : InputSchema
deriving DecidableEq

/-- OpenAI-style tool descriptor. -/
structure OpenAITool where
  name : String
  description : String
  tool_type : String
  function : OpenAIToolFunction
deriving DecidableEq

namespace DeepSeekInference

/-- DeepSeekInference::read_file_tool (src/inference/deepseek.rs:115-140). -/
def read_file_tool : OpenAITool :=
  { name := "read_file"
    description := "Read file as string using path relative to root directory of project."
    tool_type := "function"
    function :=
      { name := "read_file"
        description := "Read file as string using path relative to root directory of project."
        parameters :=
          { schema_type := "object"
            properties :=
              [("path",
                { property_type := "string"
                  description := "The file path relative to the project root directory" })]
            required := ["path"] } } }

/-- DeepSeekInference::write_file_tool (src/inference/deepseek.rs:142-174). -/
def write_file_tool : OpenAITool :=
  { name := "write_file"
    description := "Write string to file at path relative to root directory of project."
    tool_type := "function"
    function :=
      { name := "write_file"
        description := "Write string to file at path relative to root directory of project."
        parameters :=
          { schema_type := "object"
            properties :=
              [("path",
                { property_type := "string"
                  description := "The file path relative to the project root directory" }),
               ("content",
                { property_type := "string"
                  description := "The content to write to the file" })]
            required := ["path", "content"] } } }

/-- DeepSeekInference::execute_tool (src/inference/deepseek.rs:176-201). -/
def execute_tool : OpenAITool :=
  { name := "execute"
    description := "Execute bash statements as a single string.."
    tool_type := "function"
    function :=
      { name := "execute"
        description := "Execute bash statements as a single string.."
        parameters :=
          { schema_type := "object"
            properties :=
              [("statement",
                { property_type := "string"
                  description := "The bash statement to be executed." })]
            required := ["statement"] } } }

/-- DeepSeekInference::compile_check_tool (src/inference/deepseek.rs:203-228). -/
def compile_check_tool : OpenAITool :=
  { name := "compile_check"
    description := "Check if project compiles or runs without error."
    tool_type := "function"
    function :=
      { name := "compile_check"
        description := "Check if project compiles or runs without error."
        parameters :=
          { schema_type := "object"
            properties :=
              [("cmd",
                { property_type := "string"
                  description := "The command to check for compiler/interpreter errors." })]
            required := ["cmd"] } } }

/-- DeepSeekInference::get_tools (src/inference/deepseek.rs:106-113). -/
def get_tools : List OpenAITool :=
  [read_file_tool, write_file_tool, execute_tool, compile_check_tool]

end DeepSeekInference

/-- The required string fields the dispatcher demands per tool name, read
off the tool catalog's schemas. Names outside the catalog require
nothing. -/
def requiredFields (name : String) : List String :=
  match name with
  | "read_file" => DeepSeekInference.read_file_tool.function.parameters.required
  | "write_file" => DeepSeekInference.write_file_tool.function.parameters.required
  | "execute" => DeepSeekInference.execute_tool.function.parameters.required
  | "compile_check" => DeepSeekInference.compile_check_tool.function.parameters.required
  | _ => []

/-- InferenceError variants as used by the DeepSeek backend (inference
types module). ApiError carries the numeric HTTP status and the raw body. -/
inductive InferenceError
  | MissingApiKey (msg : String)
  | NetworkError (msg : String)
  | ApiError (status : Nat) (body : String)
  | InvalidResponse (msg : String)
  | SerializationError (msg : String)
deriving DecidableEq

namespace DeepSeekInference

/-- DeepSeekFunctionCall (src/inference/deepseek.rs:70-74). -/
structure DeepSeekFunctionCall where
  name : String
  arguments : String

/-- DeepSeekToolCall (src/inference/deepseek.rs:62-68). -/
structure DeepSeekToolCall where
  id : String
  call_type : String
  function : DeepSeekFunctionCall

/-- DeepSeekMessage (src/inference/deepseek.rs:53-60), after the content
deserializer has normalized string/null/array content to a list. -/
structure DeepSeekMessage where
  role : String
  content : List ContentItem
  tool_calls : Option (List DeepSeekToolCall)

/-- DeepSeekChoice (src/inference/deepseek.rs:27-31). -/
structure DeepSeekChoice where
  finish_reason : String
  message : DeepSeekMessage

/-- DeepSeekResponse (src/inference/deepseek.rs:20-25). -/
structure DeepSeekResponse where
  id : String
  model : String
  choices : List DeepSeekChoice

/-- DeepSeekRequest (src/inference/deepseek.rs:12-18): the serialized
request body. Messages are already vendor-shaped JSON values. -/
structure DeepSeekRequest where
  model : String
  messages : List Json
  max_tokens : Option Nat
  tools : Option Json

/-- An HTTP response as the backend observes it: the status code and the
fallible body-text read (response.text()). -/
structure HttpResponse where
  status : Nat
  textResult : Except String String

/-- Environment of DeepSeekInference::query_model: the configuration
fields of the struct, plus the external collaborators — serde
serialization of the tool catalog (get_tools_json), the reqwest POST
transport (error = transport failure text), serde parsing of the
response body into DeepSeekResponse, and serde parsing of tool-call
argument strings into JSON values. -/
structure DSEnv where
  model : String
  base_url : String
  api_key : String
  max_output_tokens : Nat
  toolsJson : Except String Json
  transport : DeepSeekRequest → Except String HttpResponse
  parseResponse : String → Except String DeepSeekResponse
  parseArgs : String → Except String Json

/-- The wire role strings of src/inference/deepseek.rs:258-263. -/
def roleWire : Role → String
  | .User => "user"
  | .Assistant => "assistant"
  | .System => "system"
  | .Developer => "developer"

/-- Flattening of one message's content for the DeepSeek request
(src/inference/deepseek.rs:247-255): keep Text items only, join with a
single space. -/
def deepseekContent (content : List ContentItem) : String :=
  String.intercalate " "
    (content.filterMap fun item =>
      match item with
      | ContentItem.Text text => some text
      | _ => none)

/-- Serialization of one message for the DeepSeek request
(src/inference/deepseek.rs:246-266). -/
def deepseekMessage (msg : Message) : Json :=
  Json.obj
    [("role", Json.str (roleWire msg.role)),
     ("content", Json.str (deepseekContent msg.content))]

/-- The request body built by query_model (src/inference/deepseek.rs:
239-276): optional system message prepended, messages flattened, tool
catalog attached when serialization succeeded. -/
def dsRequest (env : DSEnv) (messages : List Message)
    (system_message : Option String) : DeepSeekRequest :=
  let messages :=
    match system_message with
    | some sys_msg =>
        (⟨Role.System, [ContentItem.Text sys_msg]⟩ : Message) :: messages
    | none => messages
  { model := env.model
    messages := messages.map deepseekMessage
    max_tokens := some env.max_output_tokens
    tools := env.toolsJson.toOption }

/-- The tool-call loop of query_model (src/inference/deepseek.rs:307-321):
each function-typed call has its argument string parsed (a parse failure
aborts with SerializationError) and becomes a ToolUse item. -/
def processToolCalls (env : DSEnv) :
    List DeepSeekToolCall → Except InferenceError (List ContentItem)
  | [] => .ok []
  | tool_call :: rest =>
      if tool_call.call_type = "function" then
        match env.parseArgs tool_call.function.arguments with
        | .error e =>
            .error (.SerializationError ("Failed to parse tool arguments: " ++ e))
        | .ok input =>
            match processToolCalls env rest with
            | .error e => .error e
            | .ok items =>
                .ok (ContentItem.ToolUse tool_call.id tool_call.function.name input
                  :: items)
      else
        processToolCalls env rest

/-- DeepSeekInference::query_model (src/inference/deepseek.rs:234-338). -/
def query_model (env : DSEnv) (messages : List Message)
    (system_message : Option String) : Except InferenceError ModelResponse :=
  if env.api_key = "" then
    .error (.MissingApiKey "DeepSeek API key not found")
  else
    match env.transport (dsRequest env messages system_message) with
    | .error e => .error (.NetworkError e)
    | .ok response =>
        match response.textResult with
        | .error e => .error (.NetworkError e)
        | .ok response_text =>
            if 200 ≤ response.status ∧ response.status ≤ 299 then
              match env.parseResponse response_text with
              | .error e =>
                  .error (.InvalidResponse
                    ("Failed to parse DeepSeek response: " ++ e))
              | .ok deepseek_response =>
                  match deepseek_response.choices with
                  | [] => .error (.InvalidResponse "No choices in DeepSeek response")
                  | first_choice :: _ =>
                      match processToolCalls env
                          (first_choice.message.tool_calls.getD []) with
                      | .error e => .error e
                      | .ok tool_items =>
                          .ok { content := first_choice.message.content ++ tool_items
                                id := deepseek_response.id
                                model := deepseek_response.model
                                role := first_choice.message.role
                                message_type := "text"
                                stop_reason := first_choice.finish_reason
                                stop_sequence := none }
            else
              .error (.ApiError response.status response_text)

end DeepSeekInference

/-- Whether a content item is a Text item. -/
def ContentItem.isText : ContentItem → Bool
  | .Text _ => true
  | _ => false

/-- Whether a content item is a ToolUse item. -/
def ContentItem.isToolUse : ContentItem → Bool
  | .ToolUse .. => true
  | _ => false

/-- A dispatcher environment for concrete evaluation: git root found,
all host operations succeed. -/
def toolEnvW : ToolEnv :=
  { get_git_root := .ok "/repo"
    fsWrite := fun _ _ => .ok ()
    fsRead := fun _ => .ok ""
    runCmd := fun _ _ => some ⟨"", ""⟩ }

/-- A write_file input carrying only a path: the required content field
is absent. -/
def witInput : Json := Json.obj [("path", Json.str "a.txt")]

/-- A user message whose estimated size is positive under the
length-as-token-count estimator. -/
def oldMsg : Message := ⟨Role.User, [ContentItem.Text "old"]⟩

/-- The user message of the round-trip scenario. -/
def helloMsg : Message := ⟨Role.User, [ContentItem.Text "hello"]⟩

/-- A stub backend response whose content is the single text item hi. -/
def stubResponse : ModelResponse :=
  { content := [ContentItem.Text "hi"]
    id := "resp-1"
    model := "stub"
    role := "assistant"
    message_type := "text"
    stop_reason := "stop"
    stop_sequence := none }

/-- A DeepSeek environment whose transport fails at the connection level. -/
def dsEnvRefused : DeepSeekInference.DSEnv :=
  { model := "deepseek-chat"
    base_url := "https://api.deepseek.com"
    api_key := "k"
    max_output_tokens := 100
    toolsJson := .ok Json.null
    transport := fun _ => .error "connection refused"
    parseResponse := fun _ => .error "unused"
    parseArgs := fun _ => .error "unused" }

/-- A DeepSeek environment whose transport yields an HTTP 500 with body
oops. -/
def dsEnv500 : DeepSeekInference.DSEnv :=
  { model := "deepseek-chat"
    base_url := "https://api.deepseek.com"
    api_key := "k"
    max_output_tokens := 100
    toolsJson := .ok Json.null
    transport := fun _ => .ok ⟨500, .ok "oops"⟩
    parseResponse := fun _ => .error "unused"
    parseArgs := fun _ => .error "unused" }

/-- Claim C2: for every history and every token budget, the trimming loop
terminates (the recursion is structural on the history, which the
totality of trim_messages_to_token_limit certifies), and afterwards the
estimated total token count is within the budget or the history is
empty. -/
theorem trimming_terminates_and_bounds (tok : String → Nat)
    (max_tokens : Nat) (messages : List Message) :
    Chat.calculate_total_tokens tok
        (Chat.trim_messages_to_token_limit tok max_tokens messages)
      ≤ max_tokens ∨
    Chat.trim_messages_to_token_limit tok max_tokens messages = [] := by
  induction messages with
  | nil => right; rfl
  | cons msg rest ih =>
      unfold Chat.trim_messages_to_token_limit
      by_cases h : Chat.calculate_total_tokens tok (msg :: rest) > max_tokens
      · rw [if_pos h]
        exact ih
      · rw [if_neg h]
        left
        omega

/-- Claim C3: trimming removes the oldest messages first; the post-trim
history is a contiguous suffix of the pre-trim history. -/
theorem trimming_fifo_suffix (tok : String → Nat) (max_tokens : Nat)
    (messages : List Message) :
    List.IsSuffix (Chat.trim_messages_to_token_limit tok max_tokens messages)
      messages := by
  induction messages with
  | nil => exact List.suffix_refl []
  | cons msg rest ih =>
      unfold Chat.trim_messages_to_token_limit
      by_cases h : Chat.calculate_total_tokens tok (msg :: rest) > max_tokens
      · rw [if_pos h]
        exact ih.trans (List.suffix_cons msg rest)
      · rw [if_neg h]

/-- Claim C9: sending a message whose role is not User fails with the
invalid-role error and leaves the history untouched (not even trimmed);
the result does not depend on the backend, so no network activity occurs. -/
theorem invalid_role_rejected (tok : String → Nat) (max_tokens : Nat)
    (get_tree : Except String String)
    (query : List Message → String → Except String ModelResponse)
    (messages : List Message) (message : Message)
    (h : message.role ≠ Role.User) :
    Chat.send_message tok max_tokens get_tree query messages message =
      (.error "Can only send messages with user role when querying model.",
        messages) := by
  unfold Chat.send_message
  rw [if_neg h]

/-- Witness for invalid_role_rejected: an Assistant-role message is
rejected and the history [oldMsg] survives unchanged. -/
theorem invalid_role_rejected_witness :
    Chat.send_message String.length 0 (.ok "") (fun _ _ => .error "boom")
        [oldMsg] ⟨Role.Assistant, [ContentItem.Text "hey"]⟩ =
      (.error "Can only send messages with user role when querying model.",
        [oldMsg]) :=
  invalid_role_rejected String.length 0 (.ok "") (fun _ _ => .error "boom")
    [oldMsg] ⟨Role.Assistant, [ContentItem.Text "hey"]⟩ (by decide)

/-- Claim C6: from the empty history, sending the user message hello
against a stub backend answering with content [Text hi] returns the
Assistant message and leaves history [User hello, Assistant hi]. -/
theorem round_trip (tok : String → Nat) (max_tokens : Nat) (tree : String)
    (resp : ModelResponse) (hresp : resp.content = [ContentItem.Text "hi"]) :
    Chat.send_message tok max_tokens (.ok tree) (fun _ _ => .ok resp)
        [] ⟨Role.User, [ContentItem.Text "hello"]⟩ =
      (.ok ⟨Role.Assistant, [ContentItem.Text "hi"]⟩,
        [⟨Role.User, [ContentItem.Text "hello"]⟩,
         ⟨Role.Assistant, [ContentItem.Text "hi"]⟩]) := by
  unfold Chat.send_message
  simp [Chat.trim_messages_to_token_limit, hresp]

/-- Witness for round_trip at the concrete stub response. -/
theorem round_trip_witness :
    Chat.send_message String.length 1000 (.ok "") (fun _ _ => .ok stubResponse)
        [] ⟨Role.User, [ContentItem.Text "hello"]⟩ =
      (.ok ⟨Role.Assistant, [ContentItem.Text "hi"]⟩,
        [⟨Role.User, [ContentItem.Text "hello"]⟩,
         ⟨Role.Assistant, [ContentItem.Text "hi"]⟩]) :=
  round_trip String.length 1000 "" stubResponse rfl

/-- Claim C10: dispatching a content item that is not a ToolUse (a Text
or ToolResult item) is a hard error, and no filesystem or shell effect
is performed. -/
theorem non_tool_use_rejected (env : ToolEnv) (item : ContentItem)
    (h : item.isToolUse = false) :
    Chat.handle_tool_use env item =
      (.err "Not a tool use content item", []) := by
  cases item with
  | Text t => rfl
  | ToolUse i n inp => simp [ContentItem.isToolUse] at h
  | ToolResult i c => rfl

/-- Witness for non_tool_use_rejected at a Text item. -/
theorem non_tool_use_rejected_witness :
    Chat.handle_tool_use toolEnvW (ContentItem.Text "hello") =
      (.err "Not a tool use content item", []) :=
  non_tool_use_rejected toolEnvW (ContentItem.Text "hello") rfl

/-- Counterexample to claim C1 as stated: with a zero token budget, a
one-message pre-call history and a failing backend, send_message fails
(with the backend error) but the resulting history is empty, not the
pre-call history: the pre-push trimming is not rolled back. -/
theorem rollback_counterexample :
    (Chat.send_message String.length 0 (.ok "") (fun _ _ => .error "boom")
        [oldMsg] helloMsg).1 = .error "boom" ∧
    (Chat.send_message String.length 0 (.ok "") (fun _ _ => .error "boom")
        [oldMsg] helloMsg).2 ≠ [oldMsg] := by
  refine ⟨rfl, ?_⟩
  have h2 : (Chat.send_message String.length 0 (.ok "")
      (fun _ _ => .error "boom") [oldMsg] helloMsg).2 = [] := rfl
  rw [h2]
  intro h
  exact List.noConfusion h

/-- Claim C1 amended: when send_message with a User message fails, the
resulting history is the pre-call history either untouched (failure
while reading the git tree, before trimming) or after token-budget
trimming (backend failure); in both cases the user message is absent, so
a retry does not duplicate it. -/
theorem send_failure_rollback (tok : String → Nat) (max_tokens : Nat)
    (get_tree : Except String String)
    (query : List Message → String → Except String ModelResponse)
    (messages : List Message) (message : Message) (e : String)
    (hrole : message.role = Role.User)
    (herr : (Chat.send_message tok max_tokens get_tree query
        messages message).1 = .error e) :
    (Chat.send_message tok max_tokens get_tree query messages message).2 =
        messages ∨
    (Chat.send_message tok max_tokens get_tree query messages message).2 =
        Chat.trim_messages_to_token_limit tok max_tokens messages := by
  unfold Chat.send_message at herr ⊢
  rw [if_pos hrole] at herr ⊢
  cases get_tree with
  | error e' => left; rfl
  | ok tree =>
      simp only at herr ⊢
      cases hq : query
          (Chat.trim_messages_to_token_limit tok max_tokens messages
            ++ [message])
          (Chat.systemPrompt tree) with
      | ok resp =>
          rw [hq] at herr
          exact absurd herr (by simp)
      | error e' =>
          right
          simp

/-- Witness for send_failure_rollback: the concrete failing send of the
counterexample lands in the trimmed-history branch. -/
theorem send_failure_rollback_witness :
    (Chat.send_message String.length 0 (.ok "") (fun _ _ => .error "boom")
        [oldMsg] helloMsg).2 = [oldMsg] ∨
    (Chat.send_message String.length 0 (.ok "") (fun _ _ => .error "boom")
        [oldMsg] helloMsg).2 =
      Chat.trim_messages_to_token_limit String.length 0 [oldMsg] :=
  send_failure_rollback String.length 0 (.ok "") (fun _ _ => .error "boom")
    [oldMsg] helloMsg "boom" rfl rfl

/-- Claim C5: with the git root found, dispatching a ToolUse whose name
is none of the four known tools returns the successful text
Unknown tool: name, with no side effects. -/
theorem unknown_tool_textual (env : ToolEnv) (root : String)
    (hroot : env.get_git_root = .ok root) (id : String) (input : Json)
    (name : String)
    (hname : name ∉ ["read_file", "write_file", "execute", "compile_check"]) :
    Chat.handle_tool_use env (ContentItem.ToolUse id name input) =
      (.ok ("Unknown tool: " ++ name), []) := by
  unfold Chat.handle_tool_use
  rw [hroot]
  simp only []
  split
  · exact absurd (by simp_all) hname
  · exact absurd (by simp_all) hname
  · exact absurd (by simp_all) hname
  · exact absurd (by simp_all) hname
  · rfl

/-- Witness for unknown_tool_textual at the name frobnicate. -/
theorem unknown_tool_textual_witness :
    Chat.handle_tool_use toolEnvW (ContentItem.ToolUse "t1" "frobnicate" Json.null) =
      (.ok "Unknown tool: frobnicate", []) :=
  unknown_tool_textual toolEnvW "/repo" rfl "t1" Json.null "frobnicate"
    (by decide)

/-- Claim C4: with the git root found, a ToolUse whose input fails the
string extraction of some field required by its tool (missing field or
non-string field) makes dispatch return the structured extraction error
for a required field — naming the field, per extract_string_field — with
no side effects: neither a panic nor a successful textual result. -/
theorem missing_field_errors (env : ToolEnv) (root : String)
    (hroot : env.get_git_root = .ok root) (id : String) (name : String)
    (input : Json) (f : String)
    (hf : f ∈ requiredFields name)
    (hmiss : (Chat.extract_string_field input f).isOk = false) :
    ∃ f' msg, f' ∈ requiredFields name ∧
      Chat.extract_string_field input f' = .error msg ∧
      Chat.handle_tool_use env (ContentItem.ToolUse id name input) =
        (.err msg, []) := by
  unfold requiredFields at hf ⊢
  split at hf
  · -- read_file
    simp [DeepSeekInference.read_file_tool] at hf
    subst hf
    cases hext : Chat.extract_string_field input "path" with
    | ok s => rw [hext] at hmiss; simp [Except.isOk, Except.toBool] at hmiss
    | error msg =>
        exact ⟨"path", msg, by simp [DeepSeekInference.read_file_tool], hext,
          by simp [Chat.handle_tool_use, hroot, hext]⟩
  · -- write_file
    simp [DeepSeekInference.write_file_tool] at hf
    cases hc : Chat.extract_string_field input "content" with
    | error msg =>
        exact ⟨"content", msg,
          by simp [DeepSeekInference.write_file_tool], hc,
          by simp [Chat.handle_tool_use, hroot, hc]⟩
    | ok c =>
        have hfp : f = "path" := by
          rcases hf with hf | hf
          · exact hf
          · exfalso; subst hf; rw [hc] at hmiss; simp [Except.isOk, Except.toBool] at hmiss
        subst hfp
        cases hp : Chat.extract_string_field input "path" with
        | ok s => rw [hp] at hmiss; simp [Except.isOk, Except.toBool] at hmiss
        | error msg =>
            exact ⟨"path", msg,
              by simp [DeepSeekInference.write_file_tool], hp,
              by simp [Chat.handle_tool_use, hroot, hc, hp]⟩
  · -- execute
    simp [DeepSeekInference.execute_tool] at hf
    subst hf
    cases hext : Chat.extract_string_field input "statement" with
    | ok s => rw [hext] at hmiss; simp [Except.isOk, Except.toBool] at hmiss
    | error msg =>
        exact ⟨"statement", msg,
          by simp [DeepSeekInference.execute_tool], hext,
          by simp [Chat.handle_tool_use, hroot, hext]⟩
  · -- compile_check
    simp [DeepSeekInference.compile_check_tool] at hf
    subst hf
    cases hext : Chat.extract_string_field input "cmd" with
    | ok s => rw [hext] at hmiss; simp [Except.isOk, Except.toBool] at hmiss
    | error msg =>
        exact ⟨"cmd", msg,
          by simp [DeepSeekInference.compile_check_tool], hext,
          by simp [Chat.handle_tool_use, hroot, hext]⟩
  · simp at hf

/-- Witness for missing_field_errors: write_file without a content field
is rejected. -/
theorem missing_field_errors_witness :
    ∃ f' msg, f' ∈ requiredFields "write_file" ∧
      Chat.extract_string_field witInput f' = .error msg ∧
      Chat.handle_tool_use toolEnvW (ContentItem.ToolUse "t1" "write_file" witInput) =
        (.err msg, []) :=
  missing_field_errors toolEnvW "/repo" rfl "t1" "write_file" witInput
    "content" (by decide) rfl

/-- Claim C7: the DeepSeek request serialization of a message drops every
non-Text content item (erasing one anywhere leaves the serialized
message unchanged), and a message of Text items serializes its texts
joined by the single-space separator. -/
theorem deepseek_drops_tool_items (role : Role) (pre post : List ContentItem)
    (item : ContentItem) (texts : List String)
    (h : item.isText = false) :
    DeepSeekInference.deepseekMessage ⟨role, pre ++ item :: post⟩ =
      DeepSeekInference.deepseekMessage ⟨role, pre ++ post⟩ ∧
    DeepSeekInference.deepseekContent (texts.map ContentItem.Text) =
      String.intercalate " " texts := by
  constructor
  · cases item with
    | Text t => exact Bool.noConfusion h
    | ToolUse i n inp =>
        unfold DeepSeekInference.deepseekMessage DeepSeekInference.deepseekContent
        simp [List.filterMap_append, List.filterMap_cons]
    | ToolResult i c =>
        unfold DeepSeekInference.deepseekMessage DeepSeekInference.deepseekContent
        simp [List.filterMap_append, List.filterMap_cons]
  · unfold DeepSeekInference.deepseekContent
    congr 1
    induction texts with
    | nil => rfl
    | cons t ts ih => simp [List.filterMap_cons, ih]

/-- Witness for deepseek_drops_tool_items: a ToolUse between two texts is
dropped and the two texts join with one space. -/
theorem deepseek_drops_tool_items_witness :
    DeepSeekInference.deepseekMessage
        ⟨Role.User, [ContentItem.Text "a", ContentItem.ToolUse "i" "n" Json.null,
          ContentItem.Text "b"]⟩ =
      DeepSeekInference.deepseekMessage
        ⟨Role.User, [ContentItem.Text "a", ContentItem.Text "b"]⟩ ∧
    DeepSeekInference.deepseekContent
        ([ContentItem.Text "a", ContentItem.Text "b"]) =
      String.intercalate " " ["a", "b"] := by
  have h := deepseek_drops_tool_items Role.User [ContentItem.Text "a"]
    [ContentItem.Text "b"] (ContentItem.ToolUse "i" "n" Json.null)
    ["a", "b"] rfl
  exact ⟨h.1, h.2⟩

/-- Claim C8: with an API key configured, a transport-level failure of
the DeepSeek POST yields NetworkError with the transport message, and a
delivered response with a non-2xx status yields ApiError carrying the
status and the raw body. -/
theorem backend_failure_classification (env : DeepSeekInference.DSEnv)
    (messages : List Message) (system_message : Option String)
    (hkey : env.api_key ≠ "") :
    (∀ e, env.transport (DeepSeekInference.dsRequest env messages system_message)
        = .error e →
      DeepSeekInference.query_model env messages system_message =
        .error (.NetworkError e)) ∧
    (∀ resp body,
      env.transport (DeepSeekInference.dsRequest env messages system_message)
        = .ok resp →
      resp.textResult = .ok body →
      ¬(200 ≤ resp.status ∧ resp.status ≤ 299) →
      DeepSeekInference.query_model env messages system_message =
        .error (.ApiError resp.status body)) := by
  constructor
  · intro e htr
    unfold DeepSeekInference.query_model
    rw [if_neg hkey, htr]
  · intro resp body htr htext hstat
    unfold DeepSeekInference.query_model
    rw [if_neg hkey, htr]
    simp only []
    rw [htext]
    simp only []
    rw [if_neg hstat]

/-- Witness for backend_failure_classification: a refused connection maps
to NetworkError, a 500 response with body oops maps to ApiError 500
oops. -/
theorem backend_failure_classification_witness :
    DeepSeekInference.query_model dsEnvRefused [] none =
      .error (.NetworkError "connection refused") ∧
    DeepSeekInference.query_model dsEnv500 [] none =
      .error (.ApiError 500 "oops") :=
  ⟨(backend_failure_classification dsEnvRefused [] none (by decide)).1
      "connection refused" rfl,
   (backend_failure_classification dsEnv500 [] none (by decide)).2
      ⟨500, .ok "oops"⟩ "oops" rfl rfl (by decide)⟩

end Cmon
